import Mathlib

/-!
Verification of the property-data normalization and reconciliation layer of
the REGRID_CRE_MAP application.

The development shallowly embeds the TypeScript source:
* `src/lib/regrid.ts` — `RegridService.normalizeProperty`, `batchSearchByAPNs`
* `src/app/api/user-properties/route.ts` — `handleSingleCreate`,
  `handleBulkCreate`, `createSinglePropertyFromInput`
* `src/app/api/user-properties/[id]/refresh/route.ts` — `cleanAPN`, `POST`
* `src/app/api/user-properties/check-apn/route.ts` — `GET`

JavaScript dynamic values are modelled by the inductive type `Val`
(JSON-style values plus `undefined`); JavaScript numbers by `JsNum`
(rationals plus `NaN` and the two infinities — every JS double that the
normalizer can produce from decimal text is a rational).  JSON arrays are
modelled by the `arr` constructor; none of the verified code inspects
array contents, it only passes them through and tests truthiness.
-/

namespace Regrid

/-- Model of a JavaScript number: `NaN`, `±Infinity`, or a finite value
(represented as a rational). -/
inductive JsNum where
  | nan
  | inf
  | neginf
  | fin (q : ℚ)
deriving DecidableEq, Repr

/-- JS truthiness of a number: `NaN` and `0` are falsy. -/
def JsNum.truthy : JsNum → Bool
  | .nan => false
  | .inf => true
  | .neginf => true
  | .fin q => decide (q ≠ 0)

/-- Model of a JavaScript value as it appears in provider responses and
stored records: `undefined`, `null`, booleans, numbers, strings, objects
(ordered key/value lists, as in JS object insertion order) and arrays. -/
inductive Val where
  | undefined
  | null
  | bool (b : Bool)
  | num (n : JsNum)
  | str (s : String)
  | obj (fields : List (String × Val))
  | arr (elems : List Val)
deriving Repr

/-- JS truthiness: `undefined`, `null`, `false`, `NaN`, `0` and `""` are
falsy; every object and array is truthy. -/
def Val.truthy : Val → Bool
  | .undefined => false
  | .null => false
  | .bool b => b
  | .num n => n.truthy
  | .str s => s != ""
  | .obj _ => true
  | .arr _ => true

/-- The JavaScript `a || b` operator. -/
def jsOr (a b : Val) : Val := if a.truthy then a else b

/-- Property read `a.k` / `a?.k` as used by the embedded code: returns the
field of an object, `undefined` otherwise.  (The embedded code only ever
reads properties behind optional chaining or on values it has checked,
so the throwing cases of JS member access do not arise.) -/
def Val.get : Val → String → Val
  | .obj fs, k =>
    match fs.lookup k with
    | some v => v
    | none => .undefined
  | _, _ => .undefined

/-! ### JS string/number conversions used by the normalizer -/

/-- Consume a maximal run of decimal digits. -/
def takeDigits : List Char → List ℕ × List Char
  | [] => ([], [])
  | c :: cs =>
    if c.isDigit then
      let (ds, r) := takeDigits cs
      ((c.toNat - 48) :: ds, r)
    else ([], c :: cs)

def digitsToNat (ds : List ℕ) : ℕ := ds.foldl (fun a d => a * 10 + d) 0

/-- Parse an optional exponent part (`e`/`E`, optional sign, digits); an
absent or malformed exponent contributes the exponent `0`, as with JS
`parseFloat` which ignores trailing garbage. -/
def parseExp (cs : List Char) : ℤ :=
  match cs with
  | 'e' :: rest | 'E' :: rest =>
    let (sgn, rest') : ℤ × List Char :=
      match rest with
      | '+' :: r => (1, r)
      | '-' :: r => (-1, r)
      | r => (1, r)
    let (ds, _) := takeDigits rest'
    if ds.isEmpty then 0 else sgn * (digitsToNat ds : ℤ)
  | _ => 0

/-- The rational `sgn * mant * 10 ^ (ex - scale)`, assembled with integer
arithmetic and a single `mkRat`. -/
def decToRat (sgn : ℤ) (mant : ℕ) (scale : ℕ) (ex : ℤ) : ℚ :=
  let e : ℤ := ex - (scale : ℤ)
  if 0 ≤ e then mkRat (sgn * (mant : ℤ) * (10 : ℤ) ^ e.toNat) 1
  else mkRat (sgn * (mant : ℤ)) (10 ^ (-e).toNat)

/-- Parse a decimal literal prefix (`digits[.digits][exponent]`),
returning mantissa digits and fractional-digit count. -/
def parseFloatCore (cs : List Char) : Option (ℕ × ℕ × ℤ) :=
  let (ip, r1) := takeDigits cs
  match r1 with
  | '.' :: r2 =>
    let (fp, r3) := takeDigits r2
    if ip.isEmpty && fp.isEmpty then none
    else some (digitsToNat (ip ++ fp), fp.length, parseExp r3)
  | _ =>
    if ip.isEmpty then none
    else some (digitsToNat ip, 0, parseExp r1)

/-- JS `parseFloat` on a string: leading whitespace, optional sign,
`Infinity` or a decimal literal prefix; no valid prefix gives `NaN`. -/
def parseFloatStr (s : String) : JsNum :=
  let cs := s.data.dropWhile (fun c => c.isWhitespace)
  match cs with
  | '+' :: r => parseFloatSigned 1 r
  | '-' :: r => parseFloatSigned (-1) r
  | r => parseFloatSigned 1 r
where
  parseFloatSigned (sgn : ℤ) (cs : List Char) : JsNum :=
    if "Infinity".data.isPrefixOf cs then
      if sgn = 1 then .inf else .neginf
    else
      match parseFloatCore cs with
      | some (mant, scale, ex) => .fin (decToRat sgn mant scale ex)
      | none => .nan

/-- JS `parseInt` on a string (radix 10, as in every call site of the
embedded code): leading whitespace, optional sign, a digit prefix;
no digits gives `NaN`. -/
def parseIntStr (s : String) : JsNum :=
  let cs := s.data.dropWhile (fun c => c.isWhitespace)
  let (sgn, cs') : ℤ × List Char :=
    match cs with
    | '+' :: r => (1, r)
    | '-' :: r => (-1, r)
    | r => (1, r)
  let (ds, _) := takeDigits cs'
  if ds.isEmpty then .nan else .fin (mkRat (sgn * (digitsToNat ds : ℤ)) 1)

/-- Decimal digits of the fractional part of `r / d` (fuel-bounded; every
number produced by the embedded code is a decimal fraction, whose
expansion terminates well within the fuel). -/
def fracDigits : ℕ → ℕ → ℕ → List Char
  | 0, _, _ => []
  | _ + 1, 0, _ => []
  | fuel + 1, r, d =>
    let r10 := r * 10
    Char.ofNat (48 + r10 / d) :: fracDigits fuel (r10 % d) d

/-- Decimal rendering of a rational, as JS `String(number)` renders the
doubles arising in this code. -/
def ratToString (q : ℚ) : String :=
  let sgn := if q < 0 then "-" else ""
  let n := q.num.natAbs
  let d := q.den
  let fr := fracDigits 64 (n % d) d
  if fr.isEmpty then sgn ++ toString (n / d)
  else sgn ++ toString (n / d) ++ "." ++ String.mk fr

def JsNum.toStr : JsNum → String
  | .nan => "NaN"
  | .inf => "Infinity"
  | .neginf => "-Infinity"
  | .fin q => ratToString q

mutual
/-- JS `String(v)` / `ToString(v)`: array elements are joined with `","`,
with `null`/`undefined` elements rendered empty. -/
def valToStr : Val → String
  | .undefined => "undefined"
  | .null => "null"
  | .bool true => "true"
  | .bool false => "false"
  | .num n => n.toStr
  | .str s => s
  | .obj _ => "[object Object]"
  | .arr es => arrToStr es
def arrToStr : List Val → String
  | [] => ""
  | [.undefined] => ""
  | [.null] => ""
  | [v] => valToStr v
  | .undefined :: rest => "," ++ arrToStr rest
  | .null :: rest => "," ++ arrToStr rest
  | v :: rest => valToStr v ++ "," ++ arrToStr rest
end

/-- JS `parseFloat(v)` for an arbitrary value: the argument is converted
to a string and parsed; number arguments round-trip. -/
def parseFloatV : Val → JsNum
  | .num n => n
  | v => parseFloatStr (valToStr v)

/-- Truncation of a rational toward zero, matching how `parseInt` reads
the integer prefix of a number's decimal rendering. -/
def ratTrunc (q : ℚ) : ℤ :=
  if q < 0 then -((q.num.natAbs / q.den : ℕ) : ℤ) else ((q.num.natAbs / q.den : ℕ) : ℤ)

/-- JS `parseInt(v)` for an arbitrary value. -/
def parseIntV : Val → JsNum
  | .num .nan => .nan
  | .num .inf => .nan
  | .num .neginf => .nan
  | .num (.fin q) => .fin (mkRat (ratTrunc q) 1)
  | v => parseIntStr (valToStr v)

/-! ### JS object-literal semantics -/

/-- Setting key `k` in a JS object: replaces the value at the first
occurrence of the key (keeping its position) or appends the key. -/
def objInsert (o : List (String × Val)) (k : String) (v : Val) : List (String × Val) :=
  match o with
  | [] => [(k, v)]
  | (k', v') :: rest => if k' = k then (k', v) :: rest else (k', v') :: objInsert rest k v

/-- The JS object spread `{ ...base-entries, ...fs }`: each entry of `fs`
is assigned in order on top of `base`. -/
def spreadObj (base fs : List (String × Val)) : List (String × Val) :=
  fs.foldl (fun acc kv => objInsert acc kv.1 kv.2) base

/-- The value the spread of `fs` assigns to key `k`: the last entry of
`fs` with that key, if any. -/
def lastAssoc (k : String) : List (String × Val) → Option Val
  | [] => none
  | kv :: rest =>
    match lastAssoc k rest with
    | some v => some v
    | none => if kv.1 = k then some kv.2 else none

/-! ### `RegridService.normalizeProperty` (src/lib/regrid.ts) -/

/-- The canonical property shape produced by `normalizeProperty`
(the `RegridProperty` interface). -/
structure RegridProperty where
  id : String
  apn : Val
  line1 : Val
  line2 : Val
  city : Val
  state : Val
  zip : Val
  geometry : Val
  lat : JsNum
  lng : JsNum
  properties : List (String × Val)
deriving Repr

/-- `const fields = rawProperty.properties?.fields || rawProperty.fields
|| rawProperty.properties || rawProperty` — the normalizer's resolution
of the field container across provider response formats. -/
def resolvedFields (raw : Val) : Val :=
  jsOr ((raw.get "properties").get "fields")
    (jsOr (raw.get "fields") (jsOr (raw.get "properties") raw))

/-- `parseInt(x) || undefined` / `parseFloat(x) || undefined`. -/
def numOrUndef (n : JsNum) : Val :=
  if n.truthy then .num n else .undefined

/-- `parseFloat(x) || 0`. -/
def numOr0 (n : JsNum) : JsNum :=
  if n.truthy then n else .fin 0

/-- The canonical (pre-spread) entries of the normalizer's attribute-bag
object literal, in source order. -/
def canonicalBag (fields : Val) : List (String × Val) :=
  [ ("owner", jsOr (fields.get "owner") (.str "")),
    ("lot_size_sqft", numOrUndef (parseIntV (fields.get "ll_gissqft"))),
    ("lot_acres", numOrUndef (parseFloatV (fields.get "ll_gisacre"))),
    ("building_sqft", numOrUndef (parseIntV (fields.get "building_sqft"))),
    ("year_built", numOrUndef (parseIntV (fields.get "yearbuilt"))),
    ("zoning", jsOr (fields.get "zoning") (.str "")),
    ("zoning_description", jsOr (fields.get "zoning_description") (.str "")),
    ("property_type", jsOr (fields.get "property_type") (.str "")),
    ("use_code", jsOr (fields.get "usecode") (.str "")),
    ("use_description", jsOr (fields.get "usedesc") (.str "")),
    ("assessed_value", numOrUndef (parseFloatV (fields.get "parval"))),
    ("improvement_value", numOrUndef (parseFloatV (fields.get "improvval"))),
    ("land_value", numOrUndef (parseFloatV (fields.get "landval"))),
    ("last_sale_price", numOrUndef (parseFloatV (fields.get "saleprice"))),
    ("sale_date", jsOr (fields.get "saledate") (.str "")),
    ("county", jsOr (fields.get "county") (.str "")),
    ("qoz_status", jsOr (fields.get "qoz") (.str "")),
    ("subdivision", jsOr (fields.get "subdivision") (.str "")),
    ("qualified_opportunity_zone", jsOr (fields.get "qoz") (.str "")) ]

/-- The entries contributed by `...fields`: the entries of an object,
nothing for primitives (spreading `null`/`undefined`/numbers/booleans
adds no enumerable properties; the embedded responses never spread a
string or array here). -/
def spreadEntries : Val → List (String × Val)
  | .obj fs => fs
  | _ => []

/-- `RegridService.normalizeProperty` (the private normalizer of
src/lib/regrid.ts, part_000 revision): probes the candidate field
locations, parses the numeric fields, defaults every missing value, and
passes all raw fields through the attribute bag via `...fields`. -/
def normalizeProperty (raw : Val) : RegridProperty :=
  let fields := resolvedFields raw
  let geometry := raw.get "geometry"
  { id := valToStr (jsOr (raw.get "id") (jsOr (fields.get "id") (.str ""))),
    apn := jsOr (fields.get "parcelnumb") (jsOr (fields.get "apn") (.str "")),
    line1 := jsOr (fields.get "address") (.str ""),
    line2 := .str "",
    city := jsOr (fields.get "scity") (jsOr (fields.get "city") (.str "")),
    state := jsOr (fields.get "state2") (jsOr (fields.get "state") (.str "")),
    zip := jsOr (fields.get "szip5") (jsOr (fields.get "zip") (.str "")),
    geometry := jsOr geometry
      (.obj [("type", .str "Polygon"), ("coordinates", .arr [])]),
    lat := numOr0 (parseFloatV (fields.get "lat")),
    lng := numOr0 (parseFloatV (fields.get "lon")),
    properties := spreadObj (canonicalBag fields) (spreadEntries fields) }

/-- `regridData.properties?.k`: read a key of the attribute bag. -/
def propGet (r : RegridProperty) (k : String) : Val :=
  match r.properties.lookup k with
  | some v => v
  | none => .undefined

/-- The normalized record as a JS value, as stored in `property_data`. -/
def regridToVal (r : RegridProperty) : Val :=
  .obj
    [ ("id", .str r.id),
      ("apn", r.apn),
      ("address",
        .obj [("line1", r.line1), ("line2", r.line2), ("city", r.city),
              ("state", r.state), ("zip", r.zip)]),
      ("geometry", r.geometry),
      ("centroid", .obj [("lat", .num r.lat), ("lng", .num r.lng)]),
      ("properties", .obj r.properties) ]

/-! ### Stored records and the persistence collaborator -/

/-- A persisted `PropertyRecord` (the `Property` row type of lib/db.ts,
restricted to the fields the verified flows read or write; bookkeeping
ids and timestamps other than `updated_at` play no role in the claims).
Field values are JS values, as in the dynamically-typed source. -/
structure Property where
  regrid_id : Val
  apn : Val
  address : Val
  city : Val
  state : Val
  zip_code : Val
  geometry : Val
  lat : Val
  lng : Val
  year_built : Val
  owner : Val
  last_sale_price : Val
  sale_date : Val
  county : Val
  qoz_status : Val
  improvement_value : Val
  land_value : Val
  assessed_value : Val
  property_data : Val
  user_notes : Val
  tags : Val
  insurance_provider : Val
  maintenance_history : Val
  updated_at : Val
deriving Repr

/-- Case-insensitive substring test used by the persistence search. -/
def isPrefixL : List Char → List Char → Bool
  | [], _ => true
  | _ :: _, [] => false
  | a :: as, b :: bs => a == b && isPrefixL as bs

def containsSub (hay needle : List Char) : Bool :=
  match hay with
  | [] => needle.isEmpty
  | _ :: t => isPrefixL needle hay || containsSub t needle

/-- JS `toLowerCase`, modelled character-wise. -/
def strLower (s : String) : String := String.mk (s.data.map Char.toLower)

def strContainsCi (hay needle : String) : Bool :=
  containsSub (strLower hay).data (strLower needle).data

/-- A stored field matches a search term when it is a string containing
the term (case-insensitively); `null` fields never match. -/
def valContainsCi (v : Val) (term : String) : Bool :=
  match v with
  | .str s => strContainsCi s term
  | _ => false

/-- Modelled from the spec: `DatabaseService.getFilteredProperties`
(lib/db.ts is not part of the sources; only its type declarations and
callers are).  Per §6 of the spec, the persistence collaborator's
`listFiltered(ownerUserId, {search})` "performs substring matching
across address/parcel-number/postal fields"; the fuzzy search is the
text-similarity (`ilike`-style, case-insensitive) primitive of §4.3.
All calls are scoped to the calling user, so the database is modelled as
that user's record list. -/
def searchFilter (db : List Property) (term : Val) : List Property :=
  match term with
  | .str t =>
    db.filter (fun p =>
      valContainsCi p.apn t || valContainsCi p.address t || valContainsCi p.zip_code t)
  | _ => []

/-! ### Refresh flow (src/app/api/user-properties/[id]/refresh/route.ts) -/

/-- `cleanAPN`: a falsy argument gives `null`, otherwise every dash
character is removed (`apn.replace` with the global dash regex).
A truthy non-string receiver would throw in JS; the flows only reach
this call with string or falsy arguments. -/
def cleanAPN (v : Val) : Val :=
  if v.truthy then
    match v with
    | .str s => .str (String.mk (s.data.filter (fun c => c ≠ '-')))
    | w => w
  else .null

/-- The `updatedPropertyData` merge of the refresh route: every
provider-derived field is `fresh || existing`, the four user-authored
fields are copied from the existing record, and the raw payload snapshot
is replaced by the fresh normalized response. -/
def refreshMerge (e : Property) (r : RegridProperty) (now : Val) : Property :=
  { regrid_id := jsOr (.str r.id) e.regrid_id,
    apn := cleanAPN (jsOr r.apn e.apn),
    address := jsOr r.line1 e.address,
    city := jsOr r.city e.city,
    state := jsOr r.state e.state,
    zip_code := jsOr r.zip e.zip_code,
    geometry := jsOr r.geometry e.geometry,
    lat := jsOr (.num r.lat) e.lat,
    lng := jsOr (.num r.lng) e.lng,
    year_built := jsOr (propGet r "year_built") e.year_built,
    owner := jsOr (propGet r "owner") e.owner,
    last_sale_price := jsOr (propGet r "last_sale_price") e.last_sale_price,
    sale_date := jsOr (propGet r "sale_date") e.sale_date,
    county := jsOr (propGet r "county") e.county,
    qoz_status := jsOr (propGet r "qoz_status") e.qoz_status,
    improvement_value := jsOr (propGet r "improvement_value") e.improvement_value,
    land_value := jsOr (propGet r "land_value") e.land_value,
    assessed_value := jsOr (propGet r "assessed_value") e.assessed_value,
    property_data := jsOr (regridToVal r) e.property_data,
    user_notes := e.user_notes,
    tags := e.tags,
    insurance_provider := e.insurance_provider,
    maintenance_history := e.maintenance_history,
    updated_at := now }

/-- Outcome of the refresh `POST` handler. -/
inductive RefreshOutcome where
  | notFound
  | ineligible
  | providerUnavailable
  | noData
  | ok (updated : Property)
deriving Repr

/-- The refresh `POST` flow after authentication: look up the record
(`stored` is the user-scoped `getProperty` result), require a truthy
`apn`, call the provider (`provider` is the `searchByAPN` outcome:
an exception, `null`, or a normalized record), then merge. -/
def refreshProperty (stored : Option Property)
    (provider : Except Unit (Option RegridProperty)) (now : Val) : RefreshOutcome :=
  match stored with
  | none => .notFound
  | some e =>
    if e.apn.truthy then
      match provider with
      | .error _ => .providerUnavailable
      | .ok none => .noData
      | .ok (some r) => .ok (refreshMerge e r now)
    else .ineligible

/-- The records the refresh flow hands to `updateProperty`: exactly the
merged record on success, nothing on any error path. -/
def refreshWrites (stored : Option Property)
    (provider : Except Unit (Option RegridProperty)) (now : Val) : List Property :=
  match refreshProperty stored provider now with
  | .ok u => [u]
  | _ => []

/-! ### Create flow (src/app/api/user-properties/route.ts) -/

/-- Caller input after `createPropertySchema.parse` (zod): every field
optional except `address`; absent optional fields are `undefined`. -/
structure CreateInput where
  regrid_id : Val
  apn : Val
  address : Val
  city : Val
  state : Val
  zip_code : Val
  user_notes : Val
  tags : Val
  insurance_provider : Val
  maintenance_history : Val
deriving Repr

/-- The `propertyData` object both create paths build: provider-derived
fields take the Regrid value when present (`regridData?.x || fallback`),
caller-supplied fields fill gaps, user-authored fields come from the
caller only, and every still-absent field becomes `null`. -/
def buildPropertyData (i : CreateInput) (r : Option RegridProperty) : Property :=
  let g : (RegridProperty → Val) → Val := fun f =>
    match r with
    | some rp => f rp
    | none => .undefined
  { regrid_id := jsOr i.regrid_id .null,
    apn := jsOr (g (·.apn)) (jsOr i.apn .null),
    address := jsOr (g (·.line1)) i.address,
    city := jsOr (g (·.city)) (jsOr i.city .null),
    state := jsOr (g (·.state)) (jsOr i.state .null),
    zip_code := jsOr (g (·.zip)) (jsOr i.zip_code .null),
    geometry := jsOr (g (·.geometry)) .null,
    lat := jsOr (g (fun rp => .num rp.lat)) .null,
    lng := jsOr (g (fun rp => .num rp.lng)) .null,
    year_built := jsOr (g (propGet · "year_built")) .null,
    owner := jsOr (g (propGet · "owner")) .null,
    last_sale_price := jsOr (g (propGet · "last_sale_price")) .null,
    sale_date := jsOr (g (propGet · "sale_date")) .null,
    county := jsOr (g (propGet · "county")) .null,
    qoz_status := jsOr (g (propGet · "qoz_status")) .null,
    improvement_value := jsOr (g (propGet · "improvement_value")) .null,
    land_value := jsOr (g (propGet · "land_value")) .null,
    assessed_value := jsOr (g (propGet · "assessed_value")) .null,
    property_data := (match r with | some rp => regridToVal rp | none => .null),
    user_notes := jsOr i.user_notes .null,
    tags := jsOr i.tags .null,
    insurance_provider := jsOr i.insurance_provider .null,
    maintenance_history := jsOr i.maintenance_history .null,
    updated_at := .undefined }

inductive CreateError where
  | duplicate
  | dbFailure (msg : String)
deriving Repr

/-- `property.apn?.toLowerCase()`: lower-cases a string field, maps a
nullish field to the JS `undefined` (here `none`). -/
def apnLower : Val → Option String
  | .str s => some (strLower s)
  | _ => none

/-- `handleSingleCreate` after validation: `regrid` is the provider
lookup outcome, `dbRes` the outcome `DatabaseService.createProperty`
would report.  When the merged `propertyData.apn` is truthy, the
server-side duplicate safeguard fetches the user's records with the apn
as fuzzy search term and rejects on an exact case-insensitive apn match
before anything is persisted; otherwise the record is inserted. -/
def handleSingleCreate (i : CreateInput) (regrid : Option RegridProperty)
    (dbRes : Except String Unit) (db : List Property) :
    Except CreateError (Property × List Property) :=
  let pd := buildPropertyData i regrid
  if pd.apn.truthy then
    match (searchFilter db pd.apn).find? (fun p => apnLower p.apn == apnLower pd.apn) with
    | some _ => .error .duplicate
    | none =>
      match dbRes with
      | .error m => .error (.dbFailure m)
      | .ok _ => .ok (pd, pd :: db)
  else
    match dbRes with
    | .error m => .error (.dbFailure m)
    | .ok _ => .ok (pd, pd :: db)

/-! ### Duplicate check (src/app/api/user-properties/check-apn/route.ts) -/

structure MatchResult where
  found : Bool
  record : Option Property
deriving Repr

/-- The `check-apn` GET handler: fetch the user's records with the apn
as fuzzy search term, then filter to an exact case-insensitive apn
match. -/
def checkAPN (db : List Property) (apn : String) : MatchResult :=
  match (searchFilter db (.str apn)).find? (fun p => apnLower p.apn == some (strLower apn)) with
  | some p => ⟨true, some p⟩
  | none => ⟨false, none⟩

/-! ### Bulk create (src/app/api/user-properties/route.ts) -/

/-- One bulk row together with the outcomes of its external effects:
the per-item Regrid lookup (which may throw) and the per-item
`createProperty` persistence call. -/
structure BulkItem where
  input : CreateInput
  provider : Except Unit (Option RegridProperty)
  dbRes : Except String Unit
deriving Repr

structure BulkErrorEntry where
  index : ℕ
  input : CreateInput
  error : String
deriving Repr

structure BulkSummary where
  total : ℕ
  successful : ℕ
  failed : ℕ
deriving Repr

structure BulkResult where
  created : List Property
  errors : List BulkErrorEntry
  summary : BulkSummary
deriving Repr

/-- `createSinglePropertyFromInput`: a provider failure is caught and
logged (the property is still created without Regrid data); a
persistence failure propagates to the per-item catch of the bulk loop.
No duplicate check is performed on this path. -/
def createSingleFromInput (it : BulkItem) (db : List Property) :
    Except String (Property × List Property) :=
  let r : Option RegridProperty :=
    match it.provider with
    | .ok v => v
    | .error _ => none
  let pd := buildPropertyData it.input r
  match it.dbRes with
  | .error m => .error m
  | .ok _ => .ok (pd, pd :: db)

/-- The loop body of `handleBulkCreate`: each item is tried in order;
a success is pushed onto `created`, a failure is recorded with its index
and input, and processing continues with the next item. -/
def bulkGo (idx : ℕ) (items : List BulkItem) (db : List Property) :
    List Property × List BulkErrorEntry × List Property :=
  match items with
  | [] => ([], [], db)
  | it :: rest =>
    match createSingleFromInput it db with
    | .ok (p, db') =>
      let (cs, es, dbf) := bulkGo (idx + 1) rest db'
      (p :: cs, es, dbf)
    | .error m =>
      let (cs, es, dbf) := bulkGo (idx + 1) rest db
      (cs, ⟨idx, it.input, m⟩ :: es, dbf)

/-- `handleBulkCreate`: drive every item through the create path and
aggregate `{created, errors, summary}`; the summary counts are the
lengths of the two lists and the input length. -/
def handleBulkCreate (items : List BulkItem) (db : List Property) :
    BulkResult × List Property :=
  let (cs, es, dbf) := bulkGo 0 items db
  (⟨cs, es, ⟨items.length, cs.length, es.length⟩⟩, dbf)

/-! ### `batchSearchByAPNs` (src/lib/regrid.ts) -/

/-- `batchSearchByAPNs`: `Promise.allSettled` over the per-apn lookups
(`outcomes` is the settled result of each lookup, in order — a rejection,
a fulfilled `null`, or a fulfilled record), keeping only the fulfilled
non-null values. -/
def batchSearchByAPNs (outcomes : List (Except Unit (Option RegridProperty))) :
    List RegridProperty :=
  outcomes.filterMap (fun o =>
    match o with
    | .ok (some p) => some p
    | _ => none)

/-! ### Statement-side definitions -/

/-- "Is a non-`NaN` number or the absent/null default" — the numeric-field
well-formedness predicate of the normalizer claims. -/
def numericOrDefault : Val → Bool
  | .undefined => true
  | .null => true
  | .num .nan => false
  | .num _ => true
  | _ => false

/-- The canonical attribute-bag keys holding parsed numeric values. -/
def numericBagKeys : List String :=
  ["lot_size_sqft", "lot_acres", "building_sqft", "year_built",
   "assessed_value", "improvement_value", "land_value", "last_sale_price"]

/-- Whether a bulk item's persistence call succeeds (its Regrid lookup
never decides success: provider failures are swallowed). -/
def itemOk (it : BulkItem) : Bool :=
  match it.dbRes with
  | .ok _ => true
  | .error _ => false

def itemErrMsg (it : BulkItem) : String :=
  match it.dbRes with
  | .ok _ => ""
  | .error m => m

/-- The record a bulk item produces (independent of the database state). -/
def itemProperty (it : BulkItem) : Property :=
  buildPropertyData it.input
    (match it.provider with
     | .ok v => v
     | .error _ => none)

/-- A stored record used in concrete scenarios: parcel number
`050-183-176` with user-authored notes, owned by `Alice`. -/
def storedSample : Property :=
  { regrid_id := .null, apn := .str "050-183-176", address := .str "123 Main St",
    city := .str "Austin", state := .str "TX", zip_code := .str "78701",
    geometry := .null, lat := .num (.fin 30), lng := .num (.fin (-97)),
    year_built := .num (.fin 1950), owner := .str "Alice",
    last_sale_price := .null, sale_date := .null, county := .null,
    qoz_status := .null, improvement_value := .null, land_value := .null,
    assessed_value := .null, property_data := .null,
    user_notes := .str "my note", tags := .arr [.str "core"],
    insurance_provider := .str "Acme", maintenance_history := .null,
    updated_at := .str "2024-01-01" }

/-- A provider response carrying `owner = "Bob"` and the sample parcel
number. -/
def rawBob : Val :=
  .obj [("fields", .obj [("parcelnumb", .str "050-183-176"), ("owner", .str "Bob")])]

/-- A provider response omitting the parcel number and the owner. -/
def rawOmitting : Val :=
  .obj [("fields", .obj [("yearbuilt", .str "1998")])]

/-- A raw response whose `building_sqft` raw field is malformed text:
the passthrough spread puts the raw string into the attribute bag. -/
def rawCollide : Val := .obj [("building_sqft", .str "abc")]

/-- A raw response with a well-formed `parval` and a junk raw
`assessed_value` field colliding with the canonical key. -/
def rawConflict : Val :=
  .obj [("parval", .str "100"), ("assessed_value", .str "junk")]

/-- A raw response with no colliding raw keys. -/
def rawClean : Val :=
  .obj [("yearbuilt", .str "1998"), ("parval", .str "100")]

/-- Create input with a mixed-case parcel number and a user note. -/
def inputSample : CreateInput :=
  { regrid_id := .undefined, apn := .str "ABC-1", address := .str "5 Oak Ave",
    city := .undefined, state := .undefined, zip_code := .undefined,
    user_notes := .str "hello", tags := .undefined,
    insurance_provider := .undefined, maintenance_history := .undefined }

/-- A stored record whose parcel number matches `inputSample`'s apn only
case-insensitively. -/
def storedLower : Property :=
  { storedSample with apn := .str "abc-1" }

def nowSample : Val := .str "2025-06-01"

/-- A raw response carrying field containers at two candidate locations
with different values, and per-field alternatives at both names. -/
def rawDual : Val :=
  .obj [("properties", .obj [("fields",
          .obj [("parcelnumb", .str "P1"), ("apn", .str "P2"),
                ("scity", .str "C1"), ("city", .str "C2")])]),
        ("fields", .obj [("parcelnumb", .str "X")])]

/-! ### Helper lemmas -/

theorem jsOr_pos {a : Val} (b : Val) (h : a.truthy = true) : jsOr a b = a := by
  simp [jsOr, h]

theorem jsOr_neg {a : Val} (b : Val) (h : a.truthy = false) : jsOr a b = b := by
  simp [jsOr, h]

theorem lookup_cons_self {k : String} {v : Val} {t : List (String × Val)} :
    List.lookup k ((k, v) :: t) = some v := by
  rw [List.lookup]; simp

theorem lookup_cons_ne {k k' : String} (v : Val) (t : List (String × Val)) (h : k' ≠ k) :
    List.lookup k' ((k, v) :: t) = List.lookup k' t := by
  rw [List.lookup]
  have hb : (k' == k) = false := by simp [h]
  simp [hb]

theorem lookup_objInsert (o : List (String × Val)) (k k' : String) (v : Val) :
    (objInsert o k v).lookup k' = if k' = k then some v else o.lookup k' := by
  induction o with
  | nil =>
    by_cases h : k' = k
    · subst h; simp [objInsert, lookup_cons_self]
    · simp [objInsert, h, lookup_cons_ne _ _ h]
  | cons kv rest ih =>
    obtain ⟨k₀, v₀⟩ := kv
    by_cases h : k₀ = k
    · subst h
      by_cases h' : k' = k₀
      · subst h'; simp [objInsert, lookup_cons_self]
      · simp [objInsert, h', lookup_cons_ne _ _ h']
    · have hins : objInsert ((k₀, v₀) :: rest) k v = (k₀, v₀) :: objInsert rest k v := by
        simp [objInsert, h]
      by_cases h' : k' = k₀
      · rw [hins, h', lookup_cons_self, if_neg h, lookup_cons_self]
      · simp [hins, lookup_cons_ne _ _ h', ih]

theorem lookup_spread (fs base : List (String × Val)) (k : String) :
    (spreadObj base fs).lookup k =
      match lastAssoc k fs with
      | some v => some v
      | none => base.lookup k := by
  induction fs generalizing base with
  | nil => simp [spreadObj, lastAssoc]
  | cons kv rest ih =>
    show (spreadObj (objInsert base kv.1 kv.2) rest).lookup k = _
    rw [ih]
    rcases h : lastAssoc k rest with _ | v
    · simp only [lastAssoc, h, lookup_objInsert]
      by_cases hk : kv.1 = k
      · simp [hk]
      · have : ¬ k = kv.1 := fun hc => hk hc.symm
        simp [hk, this]
    · simp [lastAssoc, h]

theorem isPrefixL_refl (l : List Char) : isPrefixL l l = true := by
  induction l with
  | nil => rfl
  | cons a t ih => simp [isPrefixL, ih]

theorem containsSub_self (l : List Char) : containsSub l l = true := by
  cases l with
  | nil => rfl
  | cons a t => simp [containsSub, isPrefixL_refl]

theorem numericOrDefault_numOrUndef (n : JsNum) :
    numericOrDefault (numOrUndef n) = true := by
  cases n <;> simp [numOrUndef, JsNum.truthy, numericOrDefault]
  rename_i q
  by_cases h : q = 0 <;> simp [h, numericOrDefault]

theorem numOr0_ne_nan (n : JsNum) : numOr0 n ≠ .nan := by
  cases n <;> simp [numOr0, JsNum.truthy]
  rename_i q
  by_cases h : q = 0 <;> simp [h]

theorem filter_enumFrom_length (items : List BulkItem) (idx : ℕ) :
    ((items.enumFrom idx).filter (fun x => !itemOk x.2)).length
      = (items.filter (fun it => !itemOk it)).length := by
  induction items generalizing idx with
  | nil => rfl
  | cons it rest ih =>
    by_cases h : itemOk it <;> simp [List.enumFrom, List.filter, h, ih]

theorem filter_partition_length (l : List BulkItem) :
    (l.filter itemOk).length + (l.filter (fun it => !itemOk it)).length = l.length := by
  induction l with
  | nil => rfl
  | cons a t ih =>
    by_cases h : itemOk a <;> simp [List.filter, h] <;> omega

theorem bulkGo_spec (items : List BulkItem) (idx : ℕ) (db : List Property) :
    (bulkGo idx items db).1 = (items.filter itemOk).map itemProperty ∧
    (bulkGo idx items db).2.1 =
      ((items.enumFrom idx).filter (fun x => !itemOk x.2)).map
        (fun x => ⟨x.1, x.2.input, itemErrMsg x.2⟩) := by
  induction items generalizing idx db with
  | nil => simp [bulkGo]
  | cons it rest ih =>
    rcases hdb : it.dbRes with u | m
    · have h1 : createSingleFromInput it db = .error u := by
        simp [createSingleFromInput, hdb]
      have hok : itemOk it = false := by simp [itemOk, hdb]
      have hmsg : itemErrMsg it = u := by simp [itemErrMsg, hdb]
      simp [bulkGo, h1, List.enumFrom, List.filter, hok, hmsg, ih idx.succ db]
    · have h1 : createSingleFromInput it db = .ok (itemProperty it, itemProperty it :: db) := by
        simp [createSingleFromInput, itemProperty, hdb]
      have hok : itemOk it = true := by simp [itemOk, hdb]
      simp [bulkGo, h1, List.enumFrom, List.filter, hok,
        ih idx.succ (itemProperty it :: db)]

/-- C3: batch bookkeeping invariant — every input of a bulk create is
processed independently (its outcome is a function of the item alone),
a failing item is recorded in the error list with its index and input
and never aborts the batch, the created and error lists partition the
inputs, and the summary satisfies `successful + failed = total` with
`total` the input length. -/
theorem bulk_create_bookkeeping (items : List BulkItem) (db : List Property) :
    ((handleBulkCreate items db).1.summary.total = items.length) ∧
    ((handleBulkCreate items db).1.summary.successful
      = (handleBulkCreate items db).1.created.length) ∧
    ((handleBulkCreate items db).1.summary.failed
      = (handleBulkCreate items db).1.errors.length) ∧
    ((handleBulkCreate items db).1.summary.successful
      + (handleBulkCreate items db).1.summary.failed
      = (handleBulkCreate items db).1.summary.total) ∧
    ((handleBulkCreate items db).1.created = (items.filter itemOk).map itemProperty) ∧
    ((handleBulkCreate items db).1.errors =
      (items.enum.filter (fun x => !itemOk x.2)).map
        (fun x => ⟨x.1, x.2.input, itemErrMsg x.2⟩)) := by
  obtain ⟨h1, h2⟩ := bulkGo_spec items 0 db
  have henum : items.enum = items.enumFrom 0 := rfl
  refine ⟨rfl, ?_, ?_, ?_, ?_, ?_⟩
  · simp [handleBulkCreate]
  · simp [handleBulkCreate]
  · show (bulkGo 0 items db).1.length + (bulkGo 0 items db).2.1.length = items.length
    rw [h1, h2]
    simp only [List.length_map, filter_enumFrom_length]
    exact filter_partition_length items
  · exact h1
  · rw [henum]; exact h2

/-- C9: `batchSearchByAPNs` is partial-failure tolerant — with the
settled per-lookup outcomes given in order, a rejected lookup or a
fulfilled not-found is silently dropped without affecting any other
item, every fulfilled non-null record is returned in order, and a list
of pure successes is returned in full; no aggregate error is ever
raised (the function is total and returns a plain list). -/
theorem batch_by_apns_partial_failure_tolerant :
    (∀ (l₁ l₂ : List (Except Unit (Option RegridProperty))),
      batchSearchByAPNs (l₁ ++ Except.error () :: l₂) = batchSearchByAPNs (l₁ ++ l₂)) ∧
    (∀ (l₁ l₂ : List (Except Unit (Option RegridProperty))),
      batchSearchByAPNs (l₁ ++ Except.ok none :: l₂) = batchSearchByAPNs (l₁ ++ l₂)) ∧
    (∀ (l₁ l₂ : List (Except Unit (Option RegridProperty))) (p : RegridProperty),
      batchSearchByAPNs (l₁ ++ Except.ok (some p) :: l₂) =
        batchSearchByAPNs l₁ ++ p :: batchSearchByAPNs l₂) ∧
    (∀ ps : List RegridProperty,
      batchSearchByAPNs (ps.map (fun p => Except.ok (some p))) = ps) := by
  refine ⟨?_, ?_, ?_, ?_⟩
  · intro l₁ l₂
    simp [batchSearchByAPNs, List.filterMap_append, List.filterMap_cons]
  · intro l₁ l₂
    simp [batchSearchByAPNs, List.filterMap_append, List.filterMap_cons]
  · intro l₁ l₂ p
    simp [batchSearchByAPNs, List.filterMap_append, List.filterMap_cons]
  · intro ps
    induction ps with
    | nil => rfl
    | cons p t ih =>
      simpa [batchSearchByAPNs, List.filterMap_cons] using ih

/-- C8: refresh precondition errors — a missing record yields the
not-found outcome, a found record with a `null` parcel number yields the
refresh-ineligible outcome, and a provider exception yields the
provider-unavailable outcome; in all three cases no record is handed to
the persistence update. -/
theorem refresh_error_paths (e : Property)
    (provider : Except Unit (Option RegridProperty)) (now : Val) :
    (refreshProperty none provider now = .notFound ∧
      refreshWrites none provider now = []) ∧
    (e.apn = .null →
      refreshProperty (some e) provider now = .ineligible ∧
      refreshWrites (some e) provider now = []) ∧
    (e.apn.truthy = true →
      refreshProperty (some e) (.error ()) now = .providerUnavailable ∧
      refreshWrites (some e) (.error ()) now = []) := by
  refine ⟨⟨rfl, rfl⟩, ?_, ?_⟩
  · intro h
    constructor <;> simp [refreshProperty, refreshWrites, h, Val.truthy]
  · intro h
    constructor <;> simp [refreshProperty, refreshWrites, h]

/-- Witness for C8 at concrete records. -/
theorem refresh_error_paths_witness :
    (refreshProperty (some { storedSample with apn := .null }) (.ok none) nowSample
      = .ineligible) ∧
    (refreshProperty (some storedSample) (.error ()) nowSample = .providerUnavailable) ∧
    (refreshWrites (some storedSample) (.error ()) nowSample = []) :=
  ⟨((refresh_error_paths { storedSample with apn := .null } (.ok none) nowSample).2.1 rfl).1,
   ((refresh_error_paths storedSample (.error ()) nowSample).2.2 rfl).1,
   ((refresh_error_paths storedSample (.error ()) nowSample).2.2 rfl).2⟩

theorem lastAssoc_eq_none (k : String) (fs : List (String × Val))
    (h : ∀ kv ∈ fs, kv.1 ≠ k) : lastAssoc k fs = none := by
  induction fs with
  | nil => rfl
  | cons kv rest ih =>
    simp [lastAssoc, ih (fun x hx => h x (List.mem_cons_of_mem _ hx)),
      h kv (List.mem_cons_self _ _)]

/-- C6: normalizer field-location precedence — the field container is
taken from the first location holding a (truthy) value among
`properties.fields`, `fields`, `properties`, the top level; and within
the chosen container `parcelnumb` wins over `apn`, `scity` over `city`,
`state2` over `state`, `szip5` over `zip`. -/
theorem normalize_precedence (raw : Val) :
    (((raw.get "properties").get "fields").truthy = true →
      resolvedFields raw = (raw.get "properties").get "fields") ∧
    (((raw.get "properties").get "fields").truthy = false →
      (raw.get "fields").truthy = true →
      resolvedFields raw = raw.get "fields") ∧
    (((raw.get "properties").get "fields").truthy = false →
      (raw.get "fields").truthy = false →
      (raw.get "properties").truthy = true →
      resolvedFields raw = raw.get "properties") ∧
    (((raw.get "properties").get "fields").truthy = false →
      (raw.get "fields").truthy = false →
      (raw.get "properties").truthy = false →
      resolvedFields raw = raw) ∧
    (((resolvedFields raw).get "parcelnumb").truthy = true →
      (normalizeProperty raw).apn = (resolvedFields raw).get "parcelnumb") ∧
    (((resolvedFields raw).get "parcelnumb").truthy = false →
      ((resolvedFields raw).get "apn").truthy = true →
      (normalizeProperty raw).apn = (resolvedFields raw).get "apn") ∧
    (((resolvedFields raw).get "scity").truthy = true →
      (normalizeProperty raw).city = (resolvedFields raw).get "scity") ∧
    (((resolvedFields raw).get "scity").truthy = false →
      ((resolvedFields raw).get "city").truthy = true →
      (normalizeProperty raw).city = (resolvedFields raw).get "city") ∧
    (((resolvedFields raw).get "state2").truthy = true →
      (normalizeProperty raw).state = (resolvedFields raw).get "state2") ∧
    (((resolvedFields raw).get "state2").truthy = false →
      ((resolvedFields raw).get "state").truthy = true →
      (normalizeProperty raw).state = (resolvedFields raw).get "state") ∧
    (((resolvedFields raw).get "szip5").truthy = true →
      (normalizeProperty raw).zip = (resolvedFields raw).get "szip5") ∧
    (((resolvedFields raw).get "szip5").truthy = false →
      ((resolvedFields raw).get "zip").truthy = true →
      (normalizeProperty raw).zip = (resolvedFields raw).get "zip") := by
  refine ⟨?_, ?_, ?_, ?_, ?_, ?_, ?_, ?_, ?_, ?_, ?_, ?_⟩
  · intro h1
    simp [resolvedFields, jsOr_pos _ h1]
  · intro h1 h2
    simp [resolvedFields, jsOr_neg _ h1, jsOr_pos _ h2]
  · intro h1 h2 h3
    simp [resolvedFields, jsOr_neg _ h1, jsOr_neg _ h2, jsOr_pos _ h3]
  · intro h1 h2 h3
    simp [resolvedFields, jsOr_neg _ h1, jsOr_neg _ h2, jsOr_neg _ h3]
  · intro h
    simp [normalizeProperty, jsOr_pos _ h]
  · intro h1 h2
    simp [normalizeProperty, jsOr_neg _ h1, jsOr_pos _ h2]
  · intro h
    simp [normalizeProperty, jsOr_pos _ h]
  · intro h1 h2
    simp [normalizeProperty, jsOr_neg _ h1, jsOr_pos _ h2]
  · intro h
    simp [normalizeProperty, jsOr_pos _ h]
  · intro h1 h2
    simp [normalizeProperty, jsOr_neg _ h1, jsOr_pos _ h2]
  · intro h
    simp [normalizeProperty, jsOr_pos _ h]
  · intro h1 h2
    simp [normalizeProperty, jsOr_neg _ h1, jsOr_pos _ h2]

/-- Witness for C6: both container locations and both per-field
alternatives present; the higher-precedence one wins. -/
theorem normalize_precedence_witness :
    resolvedFields rawDual = (rawDual.get "properties").get "fields" ∧
    (normalizeProperty rawDual).apn = (resolvedFields rawDual).get "parcelnumb" ∧
    (normalizeProperty rawDual).city = (resolvedFields rawDual).get "scity" :=
  ⟨(normalize_precedence rawDual).1 rfl,
   (normalize_precedence rawDual).2.2.2.2.1 rfl,
   (normalize_precedence rawDual).2.2.2.2.2.2.1 rfl⟩

/-- C4 (amended): the normalizer is a total function on raw values and,
provided the raw field container does not itself carry keys that collide
with the canonical numeric bag keys (in which case the passthrough
spread replaces the parsed value verbatim — see the counterexample),
every canonical numeric bag field is a non-`NaN` number or the
absent default, and the centroid latitude/longitude are never `NaN`
(they default to `0`).  An input denoting an infinity (e.g. the text
`"Infinity"`) parses to an infinite, non-`NaN` number. -/
theorem normalize_numeric_fields (raw : Val) (fs : List (String × Val))
    (hf : resolvedFields raw = .obj fs)
    (hno : ∀ kv ∈ fs, kv.1 ∉ numericBagKeys) :
    (∀ k ∈ numericBagKeys, numericOrDefault (propGet (normalizeProperty raw) k) = true) ∧
    (normalizeProperty raw).lat ≠ .nan ∧
    (normalizeProperty raw).lng ≠ .nan := by
  have hbag : (normalizeProperty raw).properties = spreadObj (canonicalBag (.obj fs)) fs := by
    simp [normalizeProperty, hf, spreadEntries]
  refine ⟨?_, ?_, ?_⟩
  · intro k hk
    have hlast : lastAssoc k fs = none :=
      lastAssoc_eq_none k fs (fun kv hkv hek => hno kv hkv (by rw [hek]; exact hk))
    have hpg : propGet (normalizeProperty raw) k =
        (match (canonicalBag (.obj fs)).lookup k with
         | some v => v
         | none => .undefined) := by
      simp [propGet, hbag, lookup_spread, hlast]
    rw [hpg]
    have hk' : k ∈ numericBagKeys := hk
    simp only [numericBagKeys, List.mem_cons, List.not_mem_nil, or_false] at hk'
    rcases hk' with rfl | rfl | rfl | rfl | rfl | rfl | rfl | rfl
    all_goals exact numericOrDefault_numOrUndef _
  · exact numOr0_ne_nan _
  · exact numOr0_ne_nan _

/-- Counterexample for C4 as stated: a raw record whose `building_sqft`
field is the malformed text `"abc"`.  The claim requires the normalized
building-size to be a finite number or the null/default, but the
passthrough spread stores the raw string verbatim. -/
theorem normalize_numeric_field_not_defaulted :
    propGet (normalizeProperty rawCollide) "building_sqft" = .str "abc" ∧
    numericOrDefault (propGet (normalizeProperty rawCollide) "building_sqft") = false :=
  ⟨rfl, rfl⟩

/-- Witness for C4 (amended) on a collision-free raw record. -/
theorem normalize_numeric_fields_witness :
    numericOrDefault (propGet (normalizeProperty rawClean) "year_built") = true ∧
    (normalizeProperty rawClean).lat ≠ .nan :=
  ⟨(normalize_numeric_fields rawClean
      [("yearbuilt", .str "1998"), ("parval", .str "100")] rfl (by decide)).1
      "year_built" (by decide),
   (normalize_numeric_fields rawClean
      [("yearbuilt", .str "1998"), ("parval", .str "100")] rfl (by decide)).2.1⟩

/-- C5 (amended): on a name conflict the raw passthrough value wins —
the `...fields` spread is applied after the canonicalized entries, so
any raw leaf field (its last occurrence) appears verbatim in the
attribute bag, and a canonicalized value survives only for keys not
present in the raw field container. -/
theorem passthrough_wins_on_conflict (raw : Val) (fs : List (String × Val)) (k : String)
    (hf : resolvedFields raw = .obj fs) :
    (∀ v, lastAssoc k fs = some v → propGet (normalizeProperty raw) k = v) ∧
    (lastAssoc k fs = none →
      propGet (normalizeProperty raw) k =
        (match (canonicalBag (.obj fs)).lookup k with
         | some w => w
         | none => .undefined)) := by
  have hbag : (normalizeProperty raw).properties = spreadObj (canonicalBag (.obj fs)) fs := by
    simp [normalizeProperty, hf, spreadEntries]
  constructor
  · intro v hv
    simp [propGet, hbag, lookup_spread, hv]
  · intro hv
    simp [propGet, hbag, lookup_spread, hv]

/-- Counterexample for C5 as stated: the raw record carries
`parval = "100"` (canonicalized to the number `100` under
`assessed_value`) and a junk raw field named `assessed_value`; the
attribute bag holds the raw junk string, not the canonicalized number. -/
theorem canonical_key_overwritten_by_passthrough :
    propGet (normalizeProperty rawConflict) "assessed_value" = .str "junk" ∧
    numOrUndef (parseFloatV ((resolvedFields rawConflict).get "parval")) = .num (.fin 100) ∧
    Val.str "junk" ≠ Val.num (.fin 100) :=
  ⟨rfl, rfl, by simp⟩

/-- Witness for C5 (amended): the colliding key takes the raw value,
a non-colliding canonical key keeps its canonicalized default. -/
theorem passthrough_wins_on_conflict_witness :
    propGet (normalizeProperty rawConflict) "assessed_value" = .str "junk" ∧
    propGet (normalizeProperty rawConflict) "owner" = .str "" :=
  ⟨(passthrough_wins_on_conflict rawConflict
      [("parval", .str "100"), ("assessed_value", .str "junk")] "assessed_value" rfl).1
      (.str "junk") rfl,
   (passthrough_wins_on_conflict rawConflict
      [("parval", .str "100"), ("assessed_value", .str "junk")] "owner" rfl).2 rfl⟩

theorem cleanAPN_str (s : String) (h : (Val.str s).truthy = true) :
    cleanAPN (.str s) = .str (String.mk (s.data.filter (fun c => c ≠ '-'))) := by
  simp [cleanAPN, h]

theorem no_dash_in_filtered (l : List Char) :
    '-' ∉ l.filter (fun c => c ≠ '-') := by
  intro hc
  have := (List.mem_filter.mp hc).2
  simp at this

/-- Counterexample for C1 as stated: the stored parcel number is
`050-183-176` and the provider response omits the parcel number
(normalized to the empty string), so the claim requires the merged apn
to fall back to the stored value; the code instead stores the
dash-stripped `050183176`. -/
theorem refresh_apn_fallback_not_verbatim :
    (refreshMerge storedSample (normalizeProperty rawOmitting) nowSample).apn
      = .str "050183176" ∧
    (refreshMerge storedSample (normalizeProperty rawOmitting) nowSample).apn
      ≠ storedSample.apn := by
  have h : (refreshMerge storedSample (normalizeProperty rawOmitting) nowSample).apn
      = .str "050183176" := rfl
  refine ⟨h, ?_⟩
  rw [h]
  simp [storedSample]

/-- C1 (amended): the refresh merge is non-destructive — every
provider-derived field with a (truthy) value overwrites the stored
value, a provider field that is absent/null/empty (or otherwise falsy)
falls back to the existing stored value, and the user-authored fields
are carried forward untouched; the exception is the parcel number,
whose merged value (overwrite and fallback alike) additionally has all
dashes removed by `cleanAPN`, so its fallback is the dash-stripped
stored value rather than the stored value verbatim. -/
theorem refresh_merge_characterization (e : Property) (r : RegridProperty) (now : Val) :
    ((refreshMerge e r now).user_notes = e.user_notes ∧
     (refreshMerge e r now).tags = e.tags ∧
     (refreshMerge e r now).insurance_provider = e.insurance_provider ∧
     (refreshMerge e r now).maintenance_history = e.maintenance_history) ∧
    (r.apn.truthy = true → (refreshMerge e r now).apn = cleanAPN r.apn) ∧
    (r.apn.truthy = false → (refreshMerge e r now).apn = cleanAPN e.apn) ∧
    ((propGet r "owner").truthy = true →
      (refreshMerge e r now).owner = propGet r "owner") ∧
    ((propGet r "owner").truthy = false → (refreshMerge e r now).owner = e.owner) ∧
    ((refreshMerge e r now).property_data = regridToVal r) ∧
    ((Val.str r.id).truthy = true → (refreshMerge e r now).regrid_id = .str r.id) ∧
    ((Val.str r.id).truthy = false → (refreshMerge e r now).regrid_id = e.regrid_id) ∧
    (r.line1.truthy = true → (refreshMerge e r now).address = r.line1) ∧
    (r.line1.truthy = false → (refreshMerge e r now).address = e.address) ∧
    (r.city.truthy = true → (refreshMerge e r now).city = r.city) ∧
    (r.city.truthy = false → (refreshMerge e r now).city = e.city) ∧
    (r.state.truthy = true → (refreshMerge e r now).state = r.state) ∧
    (r.state.truthy = false → (refreshMerge e r now).state = e.state) ∧
    (r.zip.truthy = true → (refreshMerge e r now).zip_code = r.zip) ∧
    (r.zip.truthy = false → (refreshMerge e r now).zip_code = e.zip_code) ∧
    (r.geometry.truthy = true → (refreshMerge e r now).geometry = r.geometry) ∧
    (r.geometry.truthy = false → (refreshMerge e r now).geometry = e.geometry) ∧
    ((Val.num r.lat).truthy = true → (refreshMerge e r now).lat = .num r.lat) ∧
    ((Val.num r.lat).truthy = false → (refreshMerge e r now).lat = e.lat) ∧
    ((Val.num r.lng).truthy = true → (refreshMerge e r now).lng = .num r.lng) ∧
    ((Val.num r.lng).truthy = false → (refreshMerge e r now).lng = e.lng) ∧
    ((propGet r "year_built").truthy = true →
      (refreshMerge e r now).year_built = propGet r "year_built") ∧
    ((propGet r "year_built").truthy = false →
      (refreshMerge e r now).year_built = e.year_built) ∧
    ((propGet r "last_sale_price").truthy = true →
      (refreshMerge e r now).last_sale_price = propGet r "last_sale_price") ∧
    ((propGet r "last_sale_price").truthy = false →
      (refreshMerge e r now).last_sale_price = e.last_sale_price) ∧
    ((propGet r "sale_date").truthy = true →
      (refreshMerge e r now).sale_date = propGet r "sale_date") ∧
    ((propGet r "sale_date").truthy = false →
      (refreshMerge e r now).sale_date = e.sale_date) ∧
    ((propGet r "county").truthy = true →
      (refreshMerge e r now).county = propGet r "county") ∧
    ((propGet r "county").truthy = false →
      (refreshMerge e r now).county = e.county) ∧
    ((propGet r "qoz_status").truthy = true →
      (refreshMerge e r now).qoz_status = propGet r "qoz_status") ∧
    ((propGet r "qoz_status").truthy = false →
      (refreshMerge e r now).qoz_status = e.qoz_status) ∧
    ((propGet r "improvement_value").truthy = true →
      (refreshMerge e r now).improvement_value = propGet r "improvement_value") ∧
    ((propGet r "improvement_value").truthy = false →
      (refreshMerge e r now).improvement_value = e.improvement_value) ∧
    ((propGet r "land_value").truthy = true →
      (refreshMerge e r now).land_value = propGet r "land_value") ∧
    ((propGet r "land_value").truthy = false →
      (refreshMerge e r now).land_value = e.land_value) ∧
    ((propGet r "assessed_value").truthy = true →
      (refreshMerge e r now).assessed_value = propGet r "assessed_value") ∧
    ((propGet r "assessed_value").truthy = false →
      (refreshMerge e r now).assessed_value = e.assessed_value) := by
  and_intros
  all_goals try rfl
  all_goals intro h
  all_goals simp [refreshMerge, jsOr, h]

/-- Witness for C1 (amended): the concrete owner-overwrite,
owner-fallback and notes-preservation scenario of the spec. -/
theorem refresh_merge_characterization_witness :
    (refreshMerge storedSample (normalizeProperty rawBob) nowSample).owner
      = propGet (normalizeProperty rawBob) "owner" ∧
    (refreshMerge storedSample (normalizeProperty rawOmitting) nowSample).owner
      = storedSample.owner ∧
    (refreshMerge storedSample (normalizeProperty rawBob) nowSample).user_notes
      = storedSample.user_notes :=
  ⟨(refresh_merge_characterization storedSample (normalizeProperty rawBob)
      nowSample).2.2.2.1 rfl,
   (refresh_merge_characterization storedSample (normalizeProperty rawOmitting)
      nowSample).2.2.2.2.1 rfl,
   (refresh_merge_characterization storedSample (normalizeProperty rawBob)
      nowSample).1.1⟩

/-- C10: the persisted parcel number after a successful refresh never
contains a dash — the merged apn is `cleanAPN` of the provider-or-stored
value, so the de-duplication key can change as a side effect of refresh
even when the provider echoes the stored dash-containing value; the
create path, by contrast, stores the provider/caller apn verbatim,
dashes included. -/
theorem refresh_strips_dashes :
    (∀ (e : Property) (r : RegridProperty) (now : Val) (s : String),
      e.apn = .str s → s ≠ "" →
      ((∃ t, r.apn = .str t) ∨ r.apn.truthy = false) →
      ∃ u, (refreshMerge e r now).apn = .str u ∧ '-' ∉ u.data) ∧
    (∀ (i : CreateInput) (s : String), i.apn = .str s → s ≠ "" →
      (buildPropertyData i none).apn = .str s) := by
  constructor
  · intro e r now s hes hs hr
    have hstr : (Val.str s).truthy = true := by simp [Val.truthy, hs]
    have hmerge : (refreshMerge e r now).apn = cleanAPN (jsOr r.apn e.apn) := rfl
    rcases hr with ⟨t, ht⟩ | hf
    · by_cases htt : (Val.str t).truthy = true
      · refine ⟨String.mk (t.data.filter (fun c => c ≠ '-')), ?_, ?_⟩
        · rw [hmerge, ht, jsOr_pos _ htt, cleanAPN_str _ htt]
        · exact no_dash_in_filtered t.data
      · have htf : (Val.str t).truthy = false := by
          rcases hb : (Val.str t).truthy with _ | _
          · rfl
          · exact absurd hb htt
        refine ⟨String.mk (s.data.filter (fun c => c ≠ '-')), ?_, ?_⟩
        · rw [hmerge, ht, jsOr_neg _ htf, hes, cleanAPN_str _ hstr]
        · exact no_dash_in_filtered s.data
    · refine ⟨String.mk (s.data.filter (fun c => c ≠ '-')), ?_, ?_⟩
      · rw [hmerge, jsOr_neg _ hf, hes, cleanAPN_str _ hstr]
      · exact no_dash_in_filtered s.data
  · intro i s hi hs
    have hstr : (Val.str s).truthy = true := by simp [Val.truthy, hs]
    simp [buildPropertyData, hi, jsOr, hstr, Val.truthy, hs]

/-- Witness for C10: the provider echoes the stored dash-containing
parcel number, and the persisted apn still has no dash; the create path
keeps the dashes. -/
theorem refresh_strips_dashes_witness :
    (∃ u, (refreshMerge storedSample (normalizeProperty rawBob) nowSample).apn
        = .str u ∧ '-' ∉ u.data) ∧
    (buildPropertyData inputSample none).apn = .str "ABC-1" :=
  ⟨refresh_strips_dashes.1 storedSample (normalizeProperty rawBob) nowSample
      "050-183-176" rfl (by decide) (Or.inl ⟨"050-183-176", rfl⟩),
   refresh_strips_dashes.2 inputSample "ABC-1" rfl (by decide)⟩

/-- C2: create rejects duplicates without persisting — whenever the
merged parcel number matches a stored record's parcel number
case-insensitively, `handleSingleCreate` fails with the duplicate error
and returns no updated record list; and creating the same parcel number
twice (duplicate-free database) succeeds the first time and fails the
second time, whatever the persistence layer would have answered. -/
theorem create_rejects_duplicates :
    (∀ (i : CreateInput) (r : Option RegridProperty) (dbRes : Except String Unit)
       (db : List Property) (p : Property) (s t : String),
      (buildPropertyData i r).apn = .str s → s ≠ "" →
      p ∈ db → p.apn = .str t → strLower t = strLower s →
      handleSingleCreate i r dbRes db = .error .duplicate) ∧
    (∀ (i : CreateInput) (r : Option RegridProperty) (db : List Property) (s : String),
      (buildPropertyData i r).apn = .str s → s ≠ "" →
      (∀ p ∈ db, apnLower p.apn ≠ some (strLower s)) →
      handleSingleCreate i r (.ok ()) db
        = .ok (buildPropertyData i r, buildPropertyData i r :: db) ∧
      (∀ dbRes2, handleSingleCreate i r dbRes2 (buildPropertyData i r :: db)
        = .error .duplicate)) := by
  constructor
  · intro i r dbRes db p s t hapn hs hmem hpapn hlow
    have htr : (buildPropertyData i r).apn.truthy = true := by
      simp [hapn, Val.truthy, hs]
    have hpred : (apnLower p.apn == apnLower (buildPropertyData i r).apn) = true := by
      rw [hapn, hpapn]
      simp [apnLower, hlow]
    have hmemf : p ∈ searchFilter db (buildPropertyData i r).apn := by
      rw [hapn]
      refine List.mem_filter.mpr ⟨hmem, ?_⟩
      simp [valContainsCi, strContainsCi, hpapn, hlow, containsSub_self]
    have hfind : ((searchFilter db (buildPropertyData i r).apn).find?
        (fun p' => apnLower p'.apn == apnLower (buildPropertyData i r).apn)).isSome := by
      rw [List.find?_isSome]
      exact ⟨p, hmemf, hpred⟩
    obtain ⟨y, hy⟩ := Option.isSome_iff_exists.mp hfind
    simp [handleSingleCreate, htr, hy]
  · intro i r db s hapn hs hnone
    have htr : (buildPropertyData i r).apn.truthy = true := by
      simp [hapn, Val.truthy, hs]
    have hfind : (searchFilter db (buildPropertyData i r).apn).find?
        (fun p' => apnLower p'.apn == apnLower (buildPropertyData i r).apn) = none := by
      rw [List.find?_eq_none]
      intro x hx
      have hxdb : x ∈ db := by
        rw [hapn] at hx
        exact (List.mem_filter.mp hx).1
      have hne := hnone x hxdb
      rw [hapn]
      simp only [beq_iff_eq]
      exact fun hc => hne hc
    constructor
    · simp [handleSingleCreate, htr, hfind]
    · intro dbRes2
      have hpred : (apnLower (buildPropertyData i r).apn
          == apnLower (buildPropertyData i r).apn) = true := by
        rw [hapn]
        simp [apnLower]
      have hmemf : buildPropertyData i r
          ∈ searchFilter (buildPropertyData i r :: db) (buildPropertyData i r).apn := by
        rw [hapn]
        refine List.mem_filter.mpr ⟨List.mem_cons_self _ _, ?_⟩
        simp [valContainsCi, strContainsCi, hapn, containsSub_self]
      have hfind2 : ((searchFilter (buildPropertyData i r :: db)
            (buildPropertyData i r).apn).find?
          (fun p' => apnLower p'.apn == apnLower (buildPropertyData i r).apn)).isSome := by
        rw [List.find?_isSome]
        exact ⟨_, hmemf, hpred⟩
      obtain ⟨y, hy⟩ := Option.isSome_iff_exists.mp hfind2
      simp [handleSingleCreate, htr, hy]

/-- Witness for C2: parcel `ABC-1` against a stored `abc-1` record is
rejected; on an empty database the first create succeeds and the
second create of the same input is rejected. -/
theorem create_rejects_duplicates_witness :
    handleSingleCreate inputSample none (.ok ()) [storedLower] = .error .duplicate ∧
    handleSingleCreate inputSample none (.ok ()) []
      = .ok (buildPropertyData inputSample none, [buildPropertyData inputSample none]) ∧
    handleSingleCreate inputSample none (.ok ())
      [buildPropertyData inputSample none] = .error .duplicate :=
  ⟨create_rejects_duplicates.1 inputSample none (.ok ()) [storedLower] storedLower
      "ABC-1" "abc-1" rfl (by decide) (List.mem_cons_self _ _) rfl (by decide),
   (create_rejects_duplicates.2 inputSample none [] "ABC-1" rfl (by decide)
      (fun p hp => absurd hp (List.not_mem_nil p))).1,
   (create_rejects_duplicates.2 inputSample none [] "ABC-1" rfl (by decide)
      (fun p hp => absurd hp (List.not_mem_nil p))).2 (.ok ())⟩

/-- C7: the duplicate-check algorithm — `checkAPN` first fetches the
owner's records through the fuzzy substring search primitive with the
parcel number as the term, and reports found exactly when some candidate
of that fetched set matches the query under case-insensitive equality
(no separator stripping); the reported record is such a candidate, and
nothing is reported otherwise. -/
theorem check_apn_algorithm (db : List Property) (apn : String) :
    ((checkAPN db apn).found = true ↔
      ∃ p ∈ searchFilter db (.str apn), apnLower p.apn = some (strLower apn)) ∧
    (∀ p, (checkAPN db apn).record = some p →
      p ∈ searchFilter db (.str apn) ∧ apnLower p.apn = some (strLower apn)) ∧
    ((checkAPN db apn).found = false → (checkAPN db apn).record = none) := by
  rcases hfind : (searchFilter db (.str apn)).find?
      (fun p => apnLower p.apn == some (strLower apn)) with _ | p₀
  · have hnone := List.find?_eq_none.mp hfind
    refine ⟨?_, ?_, ?_⟩
    · simp only [checkAPN, hfind]
      constructor
      · intro h
        exact absurd h (by simp)
      · rintro ⟨p, hp, hlow⟩
        exact absurd (by simp [hlow] : (apnLower p.apn == some (strLower apn)) = true)
          (by simpa using hnone p hp)
    · intro p hp
      simp only [checkAPN, hfind] at hp
      exact absurd hp (by simp)
    · intro _
      simp [checkAPN, hfind]
  · have hmem := List.mem_of_find?_eq_some hfind
    have hpred := List.find?_some hfind
    refine ⟨?_, ?_, ?_⟩
    · constructor
      · intro _
        exact ⟨p₀, hmem, by simpa using hpred⟩
      · intro _
        simp [checkAPN, hfind]
    · intro p hp
      simp only [checkAPN, hfind, Option.some.injEq] at hp
      subst hp
      exact ⟨hmem, by simpa using hpred⟩
    · intro hf
      simp only [checkAPN, hfind] at hf
      exact absurd hf (by simp)

/-- Witness for C7: the stored `abc-1` record is fetched by the fuzzy
search for `ABC-1` and matches case-insensitively. -/
theorem check_apn_algorithm_witness :
    storedLower ∈ searchFilter [storedLower] (.str "ABC-1") ∧
    apnLower storedLower.apn = some "abc-1" :=
  (check_apn_algorithm [storedLower] "ABC-1").2.1 storedLower rfl

end Regrid
